import Mathlib

/-!
Verification of the route-planning core of the `hungry-for-waffles`
repository (`src/WaffleMap.tsx` and its earlier revision containing the
greedy solver).  JavaScript numbers are modelled as exact rationals or
reals; machine bitwise operations on small nonnegative values coincide
with the `Nat`/`Int` operations used here.
-/

set_option maxHeartbeats 1000000

/-! ## Geometry Codec: `decodePolyline` (src/WaffleMap.tsx lines 70-107)

The decoder walks the encoded string; for each of the two axes it runs

    do {
      const b = encoded.charCodeAt(index++) - 63;
      result |= (b & 0x1f) << shift;
      shift += 5;
    } while (result >= 0x20);

and then reverses the zig-zag transform and pushes `[lat / 1e3, lng / 1e3]`.
`charCodeAt` out of range yields `NaN`, and `NaN & 0x1f` is `0` in
JavaScript, so an out-of-range read contributes a zero group.
-/

/-- `(encoded.charCodeAt index - 63) & 0x1f` as a natural number: masking a
two's-complement integer with `0x1f` keeps its low five bits, i.e. reduces
it modulo 32.  An out-of-range read gives `NaN`, and `NaN & 0x1f = 0`. -/
def maskedGroup (data : List Char) (index : ℕ) : ℕ :=
  match data.get? index with
  | some c => (((c.toNat : ℤ) - 63).emod 32).toNat
  | none => 0

/-- The decoder's inner `do ... while (result >= 0x20)` loop.  State is
`(index, shift, result)`.  The `fuel` argument is an artifact of the
embedding: from the actual initial state `result = 0` the loop body always
runs exactly once (see `decodeGroup_eq`), so any positive fuel is
never exhausted. -/
def doWhileGroup (data : List Char) : ℕ → ℕ × ℕ × ℕ → ℕ × ℕ × ℕ
  | 0, st => st
  | fuel + 1, (index, shift, result) =>
    let g := maskedGroup data index
    let r := result ||| (g <<< shift)
    if 32 ≤ r then doWhileGroup data fuel (index + 1, shift + 5, r)
    else (index + 1, shift + 5, r)

/-- One axis value read by the decoder: runs the inner do-while from
`shift = 0, result = 0`, returning the next index and the accumulated
`result`. -/
def decodeGroup (data : List Char) (index : ℕ) : ℕ × ℕ :=
  let st := doWhileGroup data (data.length + 1) (index, 0, 0)
  (st.1, st.2.2)

/-- `result & 1 ? ~(result >> 1) : result >> 1`; two's-complement bitwise
NOT is `~x = -x - 1`. -/
def zigzagDecode (result : ℕ) : ℤ :=
  if result &&& 1 = 1 then -((result >>> 1 : ℕ) : ℤ) - 1 else ((result >>> 1 : ℕ) : ℤ)

/-- The decoder's outer `while (index < len)` loop, producing the cumulative
integer coordinate pairs `(lat, lng)` pushed at the end of each iteration
(before the division by the precision factor).  `fuel` is an artifact of
the embedding: the index advances by two per iteration, so `data.length`
iterations always suffice (see `decodeLoop_length`). -/
def decodeLoop (data : List Char) : ℕ → ℕ → ℤ → ℤ → List (ℤ × ℤ)
  | 0, _, _, _ => []
  | fuel + 1, index, lat, lng =>
    if index < data.length then
      let p1 := decodeGroup data index
      let dlat := zigzagDecode p1.2
      let p2 := decodeGroup data p1.1
      let dlng := zigzagDecode p2.2
      (lat + dlat, lng + dlng) :: decodeLoop data fuel p2.1 (lat + dlat) (lng + dlng)
    else []

/-- The cumulative integer coordinates accumulated by `decodePolyline`,
before division by the precision factor. -/
def decodeRaw (encoded : String) : List (ℤ × ℤ) :=
  decodeLoop encoded.data encoded.data.length 0 0 0

/-- `decodePolyline` (src/WaffleMap.tsx line 71): each pushed point is
`[lat / 1e3, lng / 1e3]`. -/
def decodePolyline (encoded : String) : List (ℚ × ℚ) :=
  (decodeRaw encoded).map fun p => ((p.1 : ℚ) / 1000, (p.2 : ℚ) / 1000)

/-! Basic facts about the inner loop. -/

theorem maskedGroup_lt (data : List Char) (index : ℕ) : maskedGroup data index < 32 := by
  unfold maskedGroup
  cases h : data.get? index with
  | none => simp
  | some c =>
    simp only []
    have h1 : (0:ℤ) ≤ ((c.toNat : ℤ) - 63).emod 32 := Int.emod_nonneg _ (by norm_num)
    have h2 : ((c.toNat : ℤ) - 63).emod 32 < 32 := Int.emod_lt_of_pos _ (by norm_num)
    omega

/-- From the initial state `shift = 0, result = 0` the inner do-while runs
its body exactly once: the first masked group is `< 0x20`, so the guard
`result >= 0x20` immediately fails. -/
theorem decodeGroup_eq (data : List Char) (index : ℕ) :
    decodeGroup data index = (index + 1, maskedGroup data index) := by
  have h := maskedGroup_lt data index
  simp [decodeGroup, doWhileGroup, Nat.shiftLeft_zero, Nat.zero_or, Nat.not_le.mpr h]

/-- Each outer iteration advances the index by exactly two and emits exactly
one point, so with fuel covering the string the decoder emits
`⌈length / 2⌉` points. -/
theorem decodeLoop_length (data : List Char) :
    ∀ (fuel index : ℕ) (lat lng : ℤ), data.length ≤ index + 2 * fuel →
      (decodeLoop data fuel index lat lng).length = (data.length - index + 1) / 2 := by
  intro fuel
  induction fuel with
  | zero =>
    intro index lat lng h
    simp only [decodeLoop, List.length_nil]
    omega
  | succ n ih =>
    intro index lat lng h
    by_cases hi : index < data.length
    · simp only [decodeLoop, if_pos hi, decodeGroup_eq, List.length_cons]
      rw [ih (index + 2) _ _ (by omega)]
      omega
    · simp only [decodeLoop, if_neg hi, List.length_nil]
      omega

/-! ### The decoding algorithm as the specification describes it
(spec §4.1 / claim C4): per axis, accumulate 5-bit groups where the group
value is `byte − 63` (low five bits) and the byte's `0x20` bit decides
continuation; an unterminated group at end of string is a decode error.
Modelled from the spec's words for comparison with `decodePolyline`. -/

/-- Spec-described inner loop: read groups while the byte's `0x20` bit is
set; `none` on truncation (string exhausted before a terminating group).
Fuel `data.length + 1` always suffices since every step consumes a
character. -/
def specGroupLoop (data : List Char) : ℕ → ℕ → ℕ → ℕ → Option (ℕ × ℕ)
  | 0, _, _, _ => none
  | fuel + 1, index, shift, result =>
    match data.get? index with
    | none => none
    | some c =>
      let b : ℤ := (c.toNat : ℤ) - 63
      let r := result ||| ((b.emod 32).toNat <<< shift)
      if 32 ≤ b then specGroupLoop data fuel (index + 1) (shift + 5) r
      else some (index + 1, r)

/-- Spec-described decoder producing cumulative integer coordinate pairs,
or `none` on a truncated input. -/
def specDecodeLoop (data : List Char) : ℕ → ℕ → ℤ → ℤ → Option (List (ℤ × ℤ))
  | 0, index, _, _ => if index < data.length then none else some []
  | fuel + 1, index, lat, lng =>
    if index < data.length then
      match specGroupLoop data (data.length + 1) index 0 0 with
      | none => none
      | some r1 =>
        let lat1 := lat + zigzagDecode r1.2
        match specGroupLoop data (data.length + 1) r1.1 0 0 with
        | none => none
        | some r2 =>
          let lng1 := lng + zigzagDecode r2.2
          match specDecodeLoop data fuel r2.1 lat1 lng1 with
          | none => none
          | some rest => some ((lat1, lng1) :: rest)
    else some []

/-- Cumulative integer coordinates under the spec-described algorithm. -/
def specDecodeRaw (encoded : String) : Option (List (ℤ × ℤ)) :=
  specDecodeLoop encoded.data encoded.data.length 0 0 0

/-- C1: the claim says decoded coordinates are the cumulative integer deltas
divided by 1e5.  The code divides by 1e3: on the encoded string `"AA"`
(one point with integer deltas `(1, 1)`) the decoder returns
`(1/1000, 1/1000)`, not `(1/100000, 1/100000)`.  This records the code's
actual behaviour at the failing input. -/
theorem decodePolyline_uses_1e3 :
    decodePolyline "AA" = [(1/1000, 1/1000)] ∧ ((1 : ℚ)/1000 ≠ 1/100000) := by
  constructor
  · have h : decodeRaw "AA" = [(1, 1)] := by decide
    simp [decodePolyline, h]
  · norm_num

/-- C3 counterexample: on the truncated input `"g"` (a single byte whose
`0x20` continuation bit is set, i.e. an unterminated 5-bit group) the
decoder does not report a decode error: it terminates normally and
silently returns one point, the out-of-range longitude read contributing
a zero delta. -/
theorem decodePolyline_truncated_cex :
    decodePolyline "g" = [(1/250, 0)] := by
  have h : decodeRaw "g" = [(4, 0)] := by decide
  simp [decodePolyline, h]
  norm_num

/-- C3 (amended): the decoder terminates on every input, including
truncated ones, without crashing or looping forever, but it reports no
decode error: it returns exactly `⌈length / 2⌉` points, an out-of-range
read contributing a zero group. -/
theorem decodePolyline_total :
    ∀ s : String, (decodePolyline s).length = (s.data.length + 1) / 2 := by
  intro s
  unfold decodePolyline decodeRaw
  rw [List.length_map, decodeLoop_length s.data s.data.length 0 0 0 (by omega)]
  omega

/-- C4 counterexample: on `"gEgE"` the code's decoder disagrees with the
claim's algorithm (continuation decided by the byte's `0x20` bit): the
code reads exactly one 5-bit group per axis and yields two points with
cumulative deltas `(4, 3)` and `(8, 6)`, while the claimed algorithm
accumulates two groups per axis and yields the single point `(100, 100)`. -/
theorem decode_continuation_cex :
    some (decodeRaw "gEgE") ≠ specDecodeRaw "gEgE" ∧
    decodeRaw "gEgE" = [(4, 3), (8, 6)] ∧
    specDecodeRaw "gEgE" = some [(100, 100)] := by decide

/-- C4 (amended): the decoder's inner loop guard is `result >= 0x20` on the
accumulated value, not the byte's `0x20` bit; since a masked group is
always `< 0x20`, each axis value consists of exactly one 5-bit group whose
value is `(byte − 63) & 0x1f`, after which the zig-zag reversal is
applied. -/
theorem decode_reads_one_group :
    ∀ (data : List Char) (index : ℕ),
      decodeGroup data index = (index + 1, maskedGroup data index) :=
  decodeGroup_eq

/-! ## Distance Metric: `haversineDistance` (earlier revision, lines 37-54)

JavaScript numbers are modelled as reals; `Math.sin`, `Math.cos`,
`Math.sqrt`, `Math.atan2` as their exact real counterparts. -/

/-- `Math.atan2 y x` over the reals. -/
noncomputable def atan2 (y x : ℝ) : ℝ :=
  if 0 < x then Real.arctan (y / x)
  else if x < 0 ∧ 0 ≤ y then Real.arctan (y / x) + Real.pi
  else if x < 0 ∧ y < 0 then Real.arctan (y / x) - Real.pi
  else if x = 0 ∧ 0 < y then Real.pi / 2
  else if x = 0 ∧ y < 0 then -(Real.pi / 2)
  else 0

/-- The haversine great-circle distance in miles (`R = 3959`), exactly as in
the source. -/
noncomputable def haversineDistance (lat1 lng1 lat2 lng2 : ℝ) : ℝ :=
  let R : ℝ := 3959
  let dLat := (lat2 - lat1) * Real.pi / 180
  let dLng := (lng2 - lng1) * Real.pi / 180
  let a :=
    Real.sin (dLat / 2) * Real.sin (dLat / 2) +
      Real.cos (lat1 * Real.pi / 180) * Real.cos (lat2 * Real.pi / 180) *
        Real.sin (dLng / 2) * Real.sin (dLng / 2)
  let c := 2 * atan2 (Real.sqrt a) (Real.sqrt (1 - a))
  R * c

theorem atan2_sin_cos {θ : ℝ} (h0 : 0 ≤ θ) (h1 : θ < Real.pi / 2) :
    atan2 (Real.sin θ) (Real.cos θ) = θ := by
  have hc : 0 < Real.cos θ :=
    Real.cos_pos_of_mem_Ioo ⟨by linarith [Real.pi_pos], h1⟩
  unfold atan2
  rw [if_pos hc, ← Real.tan_eq_sin_div_cos,
    Real.arctan_tan (by linarith [Real.pi_pos]) h1]

/-- The `2 * atan2 (√a) (√(1-a))` step of the haversine formula, evaluated
at `a = sin θ * sin θ` for `0 ≤ θ < π/2`. -/
theorem haversine_core {θ : ℝ} (h0 : 0 ≤ θ) (h1 : θ < Real.pi / 2) :
    2 * atan2 (Real.sqrt (Real.sin θ * Real.sin θ))
        (Real.sqrt (1 - Real.sin θ * Real.sin θ)) = 2 * θ := by
  have hsn : 0 ≤ Real.sin θ :=
    Real.sin_nonneg_of_nonneg_of_le_pi h0 (by linarith [Real.pi_pos])
  have hcn : 0 ≤ Real.cos θ :=
    le_of_lt (Real.cos_pos_of_mem_Ioo ⟨by linarith [Real.pi_pos], h1⟩)
  have h2 : (1 : ℝ) - Real.sin θ * Real.sin θ = Real.cos θ * Real.cos θ := by
    nlinarith [Real.sin_sq_add_cos_sq θ]
  rw [h2, Real.sqrt_mul_self hsn, Real.sqrt_mul_self hcn, atan2_sin_cos h0 h1]

/-- For two points on the same meridian with latitudes less than 180 degrees
apart, the haversine distance is exactly `R` times the latitude difference
in radians. -/
theorem haversineDistance_same_lng (lat1 lat2 lng : ℝ) (h : |lat2 - lat1| < 180) :
    haversineDistance lat1 lng lat2 lng = 3959 * (|lat2 - lat1| * Real.pi / 180) := by
  unfold haversineDistance
  simp only [sub_self, zero_mul, zero_div, Real.sin_zero, mul_zero, add_zero]
  have hsq : Real.sin ((lat2 - lat1) * Real.pi / 180 / 2) *
      Real.sin ((lat2 - lat1) * Real.pi / 180 / 2) =
      Real.sin (|lat2 - lat1| * Real.pi / 180 / 2) *
        Real.sin (|lat2 - lat1| * Real.pi / 180 / 2) := by
    rcases le_or_lt 0 (lat2 - lat1) with hd | hd
    · rw [abs_of_nonneg hd]
    · rw [abs_of_neg hd,
        show -(lat2 - lat1) * Real.pi / 180 / 2 = -((lat2 - lat1) * Real.pi / 180 / 2) by ring,
        Real.sin_neg]
      ring
  rw [hsq, haversine_core]
  · ring
  · positivity
  · have hpi : 0 < Real.pi := Real.pi_pos
    rw [div_lt_iff₀ (by norm_num : (0:ℝ) < 2)] at *
    nlinarith [abs_nonneg (lat2 - lat1)]

/-- C9: the Distance Metric vanishes on coincident points, is symmetric, and
gives approximately 69 miles (within 1 mile) for two points one degree of
longitude apart on the equator. -/
theorem haversine_metric_props :
    (∀ lat lng : ℝ, haversineDistance lat lng lat lng = 0) ∧
    (∀ lat1 lng1 lat2 lng2 : ℝ,
      haversineDistance lat1 lng1 lat2 lng2 = haversineDistance lat2 lng2 lat1 lng1) ∧
    |haversineDistance 0 0 0 1 - 69| ≤ 1 := by
  refine ⟨?_, ?_, ?_⟩
  · intro lat lng
    unfold haversineDistance
    simp only [sub_self, zero_mul, zero_div, Real.sin_zero, mul_zero, zero_add, add_zero,
      Real.sqrt_zero, sub_zero, Real.sqrt_one]
    unfold atan2
    rw [if_pos (by norm_num : (0:ℝ) < 1)]
    simp [Real.arctan_zero]
  · intro lat1 lng1 lat2 lng2
    simp only [haversineDistance]
    have ha : Real.sin ((lat2 - lat1) * Real.pi / 180 / 2) *
          Real.sin ((lat2 - lat1) * Real.pi / 180 / 2) +
          Real.cos (lat1 * Real.pi / 180) * Real.cos (lat2 * Real.pi / 180) *
            Real.sin ((lng2 - lng1) * Real.pi / 180 / 2) *
            Real.sin ((lng2 - lng1) * Real.pi / 180 / 2) =
        Real.sin ((lat1 - lat2) * Real.pi / 180 / 2) *
          Real.sin ((lat1 - lat2) * Real.pi / 180 / 2) +
          Real.cos (lat2 * Real.pi / 180) * Real.cos (lat1 * Real.pi / 180) *
            Real.sin ((lng1 - lng2) * Real.pi / 180 / 2) *
            Real.sin ((lng1 - lng2) * Real.pi / 180 / 2) := by
      rw [show (lat1 - lat2) * Real.pi / 180 / 2 = -((lat2 - lat1) * Real.pi / 180 / 2) by ring,
        show (lng1 - lng2) * Real.pi / 180 / 2 = -((lng2 - lng1) * Real.pi / 180 / 2) by ring,
        Real.sin_neg, Real.sin_neg]
      ring
    rw [ha]
  · have heq : haversineDistance 0 0 0 1 = 3959 * (Real.pi / 180) := by
      unfold haversineDistance
      simp only [sub_self, sub_zero, zero_mul, zero_div, one_mul, Real.sin_zero,
        Real.cos_zero, mul_zero, zero_add, mul_one, one_mul]
      rw [haversine_core (θ := Real.pi / 180 / 2) (by positivity)
        (by nlinarith [Real.pi_pos])]
      ring
    rw [heq, abs_le]
    constructor <;> nlinarith [Real.pi_gt_d2, Real.pi_lt_d2]

/-! ## Local Heuristic Solver: `solveHungryForWaffles`
(earlier revision, lines 57-106)

The loop body computes `nearestIndex` by a linear scan starting from index
0 with strict-`<` updates (ties keep the earlier index), then
`splice`s that element out of the working copy. -/

/-- A candidate destination (`WaffleHouse` interface). -/
structure WaffleHouse where
  id : String
  store_code : String
  business_name : String
  latitude : ℝ
  longitude : ℝ
  address : String

/-- The `for (let i = 1; ...)` scan over the remaining candidates:
`(nearestIndex, nearestDistance)` starts at `(0, d unvisited[0])` and is
updated whenever a strictly smaller distance is found. -/
noncomputable def selectNearest (d : WaffleHouse → ℝ) (hd : WaffleHouse)
    (tl : List WaffleHouse) : ℕ × ℝ :=
  (tl.enumFrom 1).foldl (fun acc p => if d p.2 < acc.2 then (p.1, d p.2) else acc) (0, d hd)

theorem selectFold_fst_lt (d : WaffleHouse → ℝ) :
    ∀ (tl : List WaffleHouse) (k : ℕ) (acc : ℕ × ℝ), acc.1 < k →
      ((tl.enumFrom k).foldl
        (fun acc p => if d p.2 < acc.2 then (p.1, d p.2) else acc) acc).1 < k + tl.length := by
  intro tl
  induction tl with
  | nil =>
    intro k acc h
    simpa [List.enumFrom] using h
  | cons x xs ih =>
    intro k acc h
    simp only [List.enumFrom, List.foldl_cons]
    have h2 : (if d x < acc.2 then (k, d x) else acc).1 < k + 1 := by
      by_cases hx : d x < acc.2
      · simp [hx]
      · simp only [if_neg hx]
        omega
    have h3 := ih (k + 1) _ h2
    simp only [List.length_cons]
    omega

theorem selectNearest_fst_lt (d : WaffleHouse → ℝ) (hd : WaffleHouse)
    (tl : List WaffleHouse) : (selectNearest d hd tl).1 < tl.length + 1 := by
  have h := selectFold_fst_lt d tl 1 (0, d hd) (by norm_num)
  unfold selectNearest
  omega

/-- The `while (unvisited.length > 0)` loop of the greedy solver: select
the nearest remaining candidate, remove it (`splice`), append it to the
route, accumulate the travelled distance, advance the current position. -/
noncomputable def solveLoop (curLat curLng : ℝ) (unvisited : List WaffleHouse) :
    List WaffleHouse × ℝ :=
  match unvisited with
  | [] => ([], 0)
  | hd :: tl =>
    let sel := selectNearest
      (fun w => haversineDistance curLat curLng w.latitude w.longitude) hd tl
    let nearest := (hd :: tl).getD sel.1 hd
    let next := solveLoop nearest.latitude nearest.longitude ((hd :: tl).eraseIdx sel.1)
    (nearest :: next.1, sel.2 + next.2)
termination_by unvisited.length
decreasing_by
  have hlt : (selectNearest
      (fun w => haversineDistance curLat curLng w.latitude w.longitude) hd tl).1 <
      (hd :: tl).length := by
    simpa using selectNearest_fst_lt
      (fun w => haversineDistance curLat curLng w.latitude w.longitude) hd tl
  rw [List.length_eraseIdx_of_lt hlt]
  simp

/-- `solveHungryForWaffles` (greedy nearest-neighbor): empty candidate set
short-circuits to an empty route and zero distance. -/
noncomputable def solveHungryForWaffles (userLat userLng : ℝ)
    (waffleHouses : List WaffleHouse) : List WaffleHouse × ℝ :=
  if waffleHouses.length = 0 then ([], 0)
  else solveLoop userLat userLng waffleHouses

theorem getD_cons_eraseIdx_perm :
    ∀ (l : List WaffleHouse) (i : ℕ) (d : WaffleHouse), i < l.length →
      (l.getD i d :: l.eraseIdx i).Perm l := by
  intro l
  induction l with
  | nil => intro i d h; simp at h
  | cons x xs ih =>
    intro i d h
    cases i with
    | zero => simp
    | succ n =>
      simp only [List.getD_cons_succ, List.eraseIdx_cons_succ]
      exact (List.Perm.swap x _ _).trans
        ((ih n d (by simpa using h)).cons x)

/-- The route built by the greedy loop is a permutation of the unvisited
list it starts from. -/
theorem solveLoop_perm :
    ∀ (n : ℕ) (l : List WaffleHouse), l.length ≤ n → ∀ (lat lng : ℝ),
      ((solveLoop lat lng l).1).Perm l := by
  intro n
  induction n with
  | zero =>
    intro l h lat lng
    have : l = [] := List.length_eq_zero.mp (Nat.le_zero.mp h)
    subst this
    simp [solveLoop]
  | succ n ih =>
    intro l h lat lng
    match l with
    | [] => simp [solveLoop]
    | hd :: tl =>
      rw [solveLoop]
      simp only []
      have hlt : (selectNearest
          (fun w => haversineDistance lat lng w.latitude w.longitude) hd tl).1 <
          (hd :: tl).length := by
        simpa using selectNearest_fst_lt
          (fun w => haversineDistance lat lng w.latitude w.longitude) hd tl
      have hlen : ((hd :: tl).eraseIdx (selectNearest
          (fun w => haversineDistance lat lng w.latitude w.longitude) hd tl).1).length ≤ n := by
        rw [List.length_eraseIdx_of_lt hlt]
        simp only [List.length_cons] at h ⊢
        omega
      exact ((ih _ hlen _ _).cons _).trans
        (getD_cons_eraseIdx_perm (hd :: tl) _ hd hlt)

/-- C7: for every candidate set with pairwise-distinct identifiers the
greedy solver returns a route whose length equals the candidate count,
containing each input candidate exactly once (no duplicate identifiers);
the empty candidate set yields an empty route and zero distance. -/
theorem solve_route_invariants (lat lng : ℝ) (whs : List WaffleHouse)
    (h : (whs.map WaffleHouse.id).Nodup) :
    ((solveHungryForWaffles lat lng whs).1).length = whs.length ∧
    (((solveHungryForWaffles lat lng whs).1).map WaffleHouse.id).Nodup ∧
    ((solveHungryForWaffles lat lng whs).1).Perm whs ∧
    (whs = [] → solveHungryForWaffles lat lng whs = ([], 0)) := by
  have hperm : ((solveHungryForWaffles lat lng whs).1).Perm whs := by
    unfold solveHungryForWaffles
    by_cases h0 : whs.length = 0
    · rw [if_pos h0, List.length_eq_zero.mp h0]
    · rw [if_neg h0]
      exact solveLoop_perm whs.length whs le_rfl lat lng
  refine ⟨hperm.length_eq, ?_, hperm, ?_⟩
  · exact (List.Perm.nodup_iff (hperm.map WaffleHouse.id)).mpr h
  · intro he
    subst he
    simp [solveHungryForWaffles]

/-- Candidate A of the spec's §8 scenario, at `(30.1, -88.0)`. -/
def whA : WaffleHouse :=
  { id := "A", store_code := "1000", business_name := "Waffle House A",
    latitude := 30.1, longitude := -88, address := "1 Waffle Way" }

/-- Candidate B of the spec's §8 scenario, at `(30.2, -88.0)`. -/
def whB : WaffleHouse :=
  { id := "B", store_code := "1001", business_name := "Waffle House B",
    latitude := 30.2, longitude := -88, address := "2 Waffle Way" }

/-- Witness for C7 at the concrete two-candidate input. -/
theorem solve_route_invariants_witness :
    (([whA, whB].map WaffleHouse.id).Nodup) ∧
    ((solveHungryForWaffles 30 (-88) [whA, whB]).1).length = [whA, whB].length := by
  have h : ([whA, whB].map WaffleHouse.id).Nodup := by decide
  exact ⟨h, (solve_route_invariants 30 (-88) [whA, whB] h).1⟩

/-- C8: on the spec's §8 scenario (start `(30.0, -88.0)`, candidates
`A (30.1, -88.0)` and `B (30.2, -88.0)`) the greedy solver visits `A`
before `B` and its total distance is exactly
`distance(start, A) + distance(A, B)`. -/
theorem solve_scenario :
    (solveHungryForWaffles 30 (-88) [whA, whB]).1 = [whA, whB] ∧
    (solveHungryForWaffles 30 (-88) [whA, whB]).2 =
      haversineDistance 30 (-88) 30.1 (-88) + haversineDistance 30.1 (-88) 30.2 (-88) := by
  have habs1 : |(30.1 : ℝ) - 30| = 0.1 := by
    rw [show (30.1 : ℝ) - 30 = 0.1 by norm_num]
    exact abs_of_pos (by norm_num)
  have habs2 : |(30.2 : ℝ) - 30| = 0.2 := by
    rw [show (30.2 : ℝ) - 30 = 0.2 by norm_num]
    exact abs_of_pos (by norm_num)
  have e1 : haversineDistance 30 (-88) 30.1 (-88) = 3959 * (0.1 * Real.pi / 180) := by
    rw [haversineDistance_same_lng 30 30.1 (-88) (by rw [habs1]; norm_num), habs1]
  have e2 : haversineDistance 30 (-88) 30.2 (-88) = 3959 * (0.2 * Real.pi / 180) := by
    rw [haversineDistance_same_lng 30 30.2 (-88) (by rw [habs2]; norm_num), habs2]
  have hAB : ¬ haversineDistance 30 (-88) whB.latitude whB.longitude <
      haversineDistance 30 (-88) whA.latitude whA.longitude := by
    show ¬ haversineDistance 30 (-88) (30.2 : ℝ) (-88) <
      haversineDistance 30 (-88) (30.1 : ℝ) (-88)
    rw [e1, e2, not_lt]
    nlinarith [Real.pi_pos]
  have hmain : solveHungryForWaffles 30 (-88) [whA, whB] =
      ([whA, whB], haversineDistance 30 (-88) whA.latitude whA.longitude +
        (haversineDistance whA.latitude whA.longitude whB.latitude whB.longitude + 0)) := by
    unfold solveHungryForWaffles
    rw [if_neg (by simp)]
    rw [solveLoop.eq_def]
    simp only [selectNearest, List.enumFrom, List.foldl_cons, List.foldl_nil,
      List.getD_cons_zero, List.eraseIdx_cons_zero]
    rw [if_neg hAB]
    rw [solveLoop.eq_def]
    simp only [selectNearest, List.enumFrom, List.foldl_nil,
      List.getD_cons_zero, List.eraseIdx_cons_zero]
    rw [solveLoop.eq_def]
  constructor
  · rw [hmain]
  · rw [hmain]
    show haversineDistance 30 (-88) (30.1 : ℝ) (-88) +
        (haversineDistance (30.1 : ℝ) (-88) (30.2 : ℝ) (-88) + 0) = _
    ring

/-! ### Mutation model for the solver

The solver's only writes are `unvisited.splice(...)` and `route.push(...)`;
`unvisited` is initialised as `[...waffleHouses]`, a fresh copy, so the
caller's array is a distinct component of the loop state that no statement
writes.  `SolveState` carries that component explicitly. -/

structure SolveState where
  waffleHouses : List WaffleHouse
  unvisited : List WaffleHouse
  route : List WaffleHouse
  curLat : ℝ
  curLng : ℝ
  totalDistance : ℝ

/-- The state on entry to the loop: `unvisited` is the spread-copy of the
input array, `route` is empty, the position is the user's, distance zero. -/
def solveInit (userLat userLng : ℝ) (waffleHouses : List WaffleHouse) : SolveState :=
  { waffleHouses := waffleHouses, unvisited := waffleHouses, route := [],
    curLat := userLat, curLng := userLng, totalDistance := 0 }

/-- One iteration of the `while (unvisited.length > 0)` loop body. -/
noncomputable def solveStep (s : SolveState) : SolveState :=
  match s.unvisited with
  | [] => s
  | hd :: tl =>
    let sel := selectNearest
      (fun w => haversineDistance s.curLat s.curLng w.latitude w.longitude) hd tl
    let nearest := (hd :: tl).getD sel.1 hd
    { s with unvisited := (hd :: tl).eraseIdx sel.1,
             route := s.route ++ [nearest],
             totalDistance := s.totalDistance + sel.2,
             curLat := nearest.latitude, curLng := nearest.longitude }

/-- Iterating the loop body. -/
noncomputable def solveRun : ℕ → SolveState → SolveState
  | 0, s => s
  | n + 1, s => solveRun n (solveStep s)


/-- Adequacy of the state machine: run long enough, it computes exactly the
route and total distance of the functional rendering of the loop. -/
theorem solveRun_solveLoop :
    ∀ (n : ℕ) (s : SolveState), s.unvisited.length ≤ n →
      (solveRun n s).route = s.route ++ (solveLoop s.curLat s.curLng s.unvisited).1 ∧
      (solveRun n s).totalDistance =
        s.totalDistance + (solveLoop s.curLat s.curLng s.unvisited).2 := by
  intro n
  induction n with
  | zero =>
    intro s h
    have hu : s.unvisited = [] := List.length_eq_zero.mp (Nat.le_zero.mp h)
    rw [solveRun, hu, solveLoop]
    simp
  | succ n ih =>
    intro s h
    rw [solveRun]
    cases hu : s.unvisited with
    | nil =>
      have hstep : solveStep s = s := by rw [solveStep, hu]
      have h0 : s.unvisited.length ≤ n := by rw [hu]; simp
      have hthis := ih s h0
      rw [hu] at hthis
      rw [hstep]
      exact hthis
    | cons hd tl =>
      have hlt : (selectNearest
          (fun w => haversineDistance s.curLat s.curLng w.latitude w.longitude) hd tl).1 <
          (hd :: tl).length := by
        simpa using selectNearest_fst_lt
          (fun w => haversineDistance s.curLat s.curLng w.latitude w.longitude) hd tl
      set sel := selectNearest
        (fun w => haversineDistance s.curLat s.curLng w.latitude w.longitude) hd tl with hseldef
      set nst := (hd :: tl).getD sel.1 hd with hnstdef
      have hstep : solveStep s =
          { s with unvisited := (hd :: tl).eraseIdx sel.1,
                   route := s.route ++ [nst],
                   totalDistance := s.totalDistance + sel.2,
                   curLat := nst.latitude, curLng := nst.longitude } := by
        rw [solveStep, hu]
      have hlen2 : ((hd :: tl).eraseIdx sel.1).length ≤ n := by
        rw [List.length_eraseIdx_of_lt hlt]
        rw [hu] at h
        simp only [List.length_cons] at h ⊢
        omega
      have hrec := ih (solveStep s) (by rw [hstep]; exact hlen2)
      rw [hstep] at hrec
      simp only [] at hrec
      rw [solveLoop.eq_def]
      simp only []
      rw [← hseldef, ← hnstdef]
      refine ⟨?_, ?_⟩
      · rw [hstep, hrec.1, List.append_assoc, List.singleton_append]
      · rw [hstep, hrec.2]
        ring

/-- C10: the solver does not mutate its input candidate array: the working
copy made by the spread is the only list the loop removes elements from,
so after any number of iterations the caller's array component of the
state is unchanged. -/
theorem solve_does_not_mutate_input :
    ∀ (n : ℕ) (userLat userLng : ℝ) (whs : List WaffleHouse),
      (solveRun n (solveInit userLat userLng whs)).waffleHouses = whs := by
  have hstep : ∀ s : SolveState, (solveStep s).waffleHouses = s.waffleHouses := by
    intro s
    rw [solveStep]
    cases s.unvisited <;> simp
  have hrun : ∀ (n : ℕ) (s : SolveState), (solveRun n s).waffleHouses = s.waffleHouses := by
    intro n
    induction n with
    | zero => intro s; rw [solveRun]
    | succ n ih =>
      intro s
      rw [solveRun, ih, hstep]
  intro n userLat userLng whs
  rw [hrun]
  rfl

/-! ## Remote adapters and planning flow
(`getOptimizedWaffleRoute`, `getORSRoute`, `fetchRealRoute`,
`fetchWaffleHouses`, src/WaffleMap.tsx lines 109-263 and 510-644)

Network exchanges are oracles: an `Except Unit α` argument stands for the
settled HTTP result (`.error` for any transport/HTTP rejection).  The API
key is assumed present (its absence is one more way the same `.error`
arises).  `pathCalls` instruments the model with the list of coordinate
lists sent to the directions (path) service for geometry. -/

/-- One step of the optimization response (`ORSOptimizationResponse`
steps); `job` is absent on depot steps. -/
structure ORSStep where
  job : Option ℤ
  arrival : ℝ
  duration : ℝ
  distance : ℝ

/-- One route of the optimization response; `geometry` is the optional
encoded polyline. -/
structure ORSRouteEntry where
  vehicle : ℤ
  steps : List ORSStep
  distance : ℝ
  duration : ℝ
  geometry : Option String

structure ORSOptimizationResponse where
  unassigned : List Unit
  routes : List ORSRouteEntry

/-- JavaScript array indexing `waffleHouses[j - 1]`: a negative or
out-of-range index reads `undefined`. -/
def idxLookup (waffleHouses : List WaffleHouse) (j : ℤ) : Option WaffleHouse :=
  if 0 ≤ j - 1 then waffleHouses.get? (j - 1).toNat else none

/-- `route.steps.filter(step => step.job !== undefined).map(step =>
waffleHouses[step.job - 1])`: depot steps are filtered out; every other
step is mapped through the 1-indexed array read, an unresolvable
identifier producing an `undefined` entry. -/
def reconstructRoute (steps : List ORSStep) (waffleHouses : List WaffleHouse) :
    List (Option WaffleHouse) :=
  (steps.filter fun st => st.job.isSome).map fun st =>
    match st.job with
    | some j => idxLookup waffleHouses j
    | none => none

/-- Reading `wh.latitude, wh.longitude` off a possibly-`undefined` route
entry: a `TypeError` (modelled as `.error`) on `undefined`. -/
def derefLatLng : Option WaffleHouse → Except Unit (ℝ × ℝ)
  | some wh => .ok (wh.latitude, wh.longitude)
  | none => .error ()

/-- As `derefLatLng` but producing `[lng, lat]` order. -/
def derefLngLat : Option WaffleHouse → Except Unit (ℝ × ℝ)
  | some wh => .ok (wh.longitude, wh.latitude)
  | none => .error ()

/-- A JavaScript `.map` whose body may throw: stops at the first failing
element. -/
def mapDeref (f : Option WaffleHouse → Except Unit (ℝ × ℝ)) :
    List (Option WaffleHouse) → Except Unit (List (ℝ × ℝ))
  | [] => .ok []
  | x :: xs =>
    match f x with
    | .error e => .error e
    | .ok y =>
      match mapDeref f xs with
      | .error e => .error e
      | .ok ys => .ok (y :: ys)

/-- Mapping `wh => [wh.latitude, wh.longitude]` over a route containing an
`undefined` entry throws: the first `undefined` dereference fails the
whole map. -/
theorem mapDeref_derefLatLng_none {l : List (Option WaffleHouse)} (h : none ∈ l) :
    mapDeref derefLatLng l = .error () := by
  induction l with
  | nil => simp at h
  | cons x xs ih =>
    cases x with
    | none => rfl
    | some w =>
      have hx : none ∈ xs := by
        rcases List.mem_cons.mp h with h1 | h2
        · exact absurd h1 (by simp)
        · exact h2
      rw [mapDeref]
      simp only [derefLatLng, ih hx]

/-- `routeCoordinates.filter(coord => coord.length >= 2).map(coord =>
[coord[1], coord[0]])`: directions-service `[lng, lat]` rows to Leaflet
`[lat, lng]` pairs. -/
def toLatLngPairs (cs : List (List ℝ)) : List (ℝ × ℝ) :=
  (cs.filter fun c => 2 ≤ c.length).map fun c => (c.getD 1 0, c.getD 0 0)

/-- The value `getOptimizedWaffleRoute` resolves with. -/
structure OptimizedResult where
  optimizedRoute : List (Option WaffleHouse)
  routeGeometry : List (ℝ × ℝ)
  totalDistance : ℝ
  totalDuration : ℝ

/-- `getOptimizedWaffleRoute` (lines 110-263) as a pure function of the two
possible network outcomes.  Notes kept from the source: an empty
`waffleHouses` short-circuits; a missing first route or empty step list is
a thrown error; `if (route.geometry)` is JavaScript truthiness, so an
empty string also takes the straight-line fallback; the decoder never
throws, so the decode `catch` is dead; building the fallback geometry
dereferences route entries (a `TypeError` on an `undefined` entry
propagates to the outer catch and fails the call); the `< 1` sanity check
reads the first produced coordinate, and its directions call, whose input
is built inside the inner `try`, keeps the previous geometry on any
failure.  The second returned component lists the coordinate lists sent to
the directions service. -/
noncomputable def getOptimizedWaffleRoute (start : ℝ × ℝ)
    (waffleHouses : List WaffleHouse)
    (optHttp : Except Unit ORSOptimizationResponse)
    (dirHttp : Except Unit (List (List ℝ))) :
    Except Unit (OptimizedResult × List (List (ℝ × ℝ))) :=
  if waffleHouses.length = 0 then
    .ok ({ optimizedRoute := [], routeGeometry := [],
           totalDistance := 0, totalDuration := 0 }, [])
  else
    match optHttp with
    | .error _ => .error ()
    | .ok resp =>
      match resp.routes.get? 0 with
      | none => .error ()
      | some route =>
        if route.steps.length = 0 then .error ()
        else
          let optimizedRoute := reconstructRoute route.steps waffleHouses
          let gRes : Except Unit (List (ℝ × ℝ)) :=
            match route.geometry with
            | some g =>
              if g.length ≠ 0 then
                .ok ((decodePolyline g).map fun p => (((p.2 : ℚ) : ℝ), ((p.1 : ℚ) : ℝ)))
              else
                (mapDeref derefLatLng optimizedRoute).map fun ll => (start.1, start.2) :: ll
            | none =>
              (mapDeref derefLatLng optimizedRoute).map fun ll => (start.1, start.2) :: ll
          match gRes with
          | .error _ => .error ()
          | .ok rg =>
            if 0 < rg.length ∧ (rg.getD 0 (0, 0)).1 < 1 then
              match mapDeref derefLngLat optimizedRoute with
              | .error _ =>
                .ok ({ optimizedRoute := optimizedRoute, routeGeometry := rg,
                       totalDistance := route.distance / 1609.34,
                       totalDuration := route.duration / 60 }, [])
              | .ok cs =>
                let coords := (start.2, start.1) :: cs
                match dirHttp with
                | .ok rcs =>
                  .ok ({ optimizedRoute := optimizedRoute,
                         routeGeometry := toLatLngPairs rcs,
                         totalDistance := route.distance / 1609.34,
                         totalDuration := route.duration / 60 }, [coords])
                | .error _ =>
                  .ok ({ optimizedRoute := optimizedRoute, routeGeometry := rg,
                         totalDistance := route.distance / 1609.34,
                         totalDuration := route.duration / 60 }, [coords])
            else
              .ok ({ optimizedRoute := optimizedRoute, routeGeometry := rg,
                     totalDistance := route.distance / 1609.34,
                     totalDuration := route.duration / 60 }, [])

/-- The component state touched by the planning flow, plus the `pathCalls`
instrumentation.  A field a request does not set keeps its previous
(stale) value, exactly as the React state does. -/
structure UIState where
  waffleHouses : List WaffleHouse
  route : List (Option WaffleHouse)
  totalDistance : ℝ
  realRouteCoordinates : List (ℝ × ℝ)
  routeStats : Option (ℝ × ℝ)
  waffleHouseError : Option Unit
  routeError : Option Unit
  pathCalls : List (List (ℝ × ℝ))

/-- A fresh component state. -/
def initialUIState : UIState :=
  { waffleHouses := [], route := [], totalDistance := 0, realRouteCoordinates := [],
    routeStats := none, waffleHouseError := none, routeError := none, pathCalls := [] }

/-- `fetchRealRoute` (lines 582-644): early return on an empty route;
builds `[userLng, userLat]` followed by the route's `[lng, lat]` pairs,
calls the directions service, and converts; any failure clears the
geometry and statistics and records a route error.  The statistics request
is the `statsHttp` oracle. -/
noncomputable def fetchRealRoute (s : UIState) (userLat userLng : ℝ)
    (waffleRoute : List (Option WaffleHouse))
    (dirHttp : Except Unit (List (List ℝ)))
    (statsHttp : Except Unit (ℝ × ℝ)) : UIState :=
  if waffleRoute.length = 0 then s
  else
    let s1 := { s with routeError := none }
    match mapDeref derefLngLat waffleRoute with
    | .error _ =>
      { s1 with routeError := some (), realRouteCoordinates := [], routeStats := none }
    | .ok cs =>
      let coords := (userLng, userLat) :: cs
      let s2 := { s1 with pathCalls := s1.pathCalls ++ [coords] }
      match dirHttp with
      | .error _ =>
        { s2 with routeError := some (), realRouteCoordinates := [], routeStats := none }
      | .ok rcs =>
        let s3 := { s2 with realRouteCoordinates := toLatLngPairs rcs }
        match statsHttp with
        | .ok p => { s3 with routeStats := some (p.1 / 1609.34, p.2 / 60) }
        | .error _ => { s3 with routeStats := none }

/-- `fetchWaffleHouses` (lines 511-579), from the settled candidate-lookup
response onward: on success with a non-empty candidate list it awaits
`getOptimizedWaffleRoute`; any throw lands in the catch, which records the
error and clears the candidate list (the route state is left untouched).
On success it stores the route and statistics, then either keeps the
returned geometry or, only when that geometry is empty, awaits
`fetchRealRoute`. -/
noncomputable def fetchWaffleHouses (s0 : UIState) (lat lng : ℝ)
    (fetchHttp : Except Unit (Bool × List WaffleHouse))
    (optHttp : Except Unit ORSOptimizationResponse)
    (dirOptHttp dirHttp : Except Unit (List (List ℝ)))
    (statsHttp : Except Unit (ℝ × ℝ)) : UIState :=
  let s := { s0 with waffleHouseError := none }
  match fetchHttp with
  | .error _ => { s with waffleHouseError := some (), waffleHouses := [] }
  | .ok r =>
    if r.1 then
      let s1 := { s with waffleHouses := r.2 }
      if 0 < r.2.length then
        match getOptimizedWaffleRoute (lat, lng) r.2 optHttp dirOptHttp with
        | .error _ => { s1 with waffleHouseError := some (), waffleHouses := [] }
        | .ok res =>
          let s2 := { s1 with route := res.1.optimizedRoute,
                              totalDistance := res.1.totalDistance,
                              routeStats := some (res.1.totalDistance, res.1.totalDuration),
                              pathCalls := s1.pathCalls ++ res.2 }
          if 0 < res.1.routeGeometry.length then
            { s2 with realRouteCoordinates := res.1.routeGeometry }
          else
            fetchRealRoute s2 lat lng res.1.optimizedRoute dirHttp statsHttp
      else
        { s1 with route := [], totalDistance := 0, realRouteCoordinates := [],
                  routeStats := none }
    else { s with waffleHouseError := some (), waffleHouses := [] }

/-- C5 counterexample: against a candidate set of size 2, a response step
carrying the out-of-range identifier 5 is not dropped: the reconstructed
route keeps the step as an `undefined` entry (so not every member of the
returned route is drawn from the candidate set, and no diagnostic is
attached). -/
theorem reconstruct_out_of_range_cex :
    reconstructRoute [{ job := some 5, arrival := 0, duration := 0, distance := 0 }]
      [whA, whB] = [none] := rfl

/-- C5 (amended): depot steps (no job identifier) are dropped; every step
carrying an identifier is retained, an unresolvable identifier
contributing an `undefined` entry rather than being dropped, with no
diagnostic note; every entry that does resolve is drawn from the input
candidate set.  The request does not in general still succeed: when the
optimizer response carries no geometry, building the straight-line
fallback dereferences the `undefined` entry and the whole optimization
call fails. -/
theorem reconstruct_keeps_unresolvable :
    ∀ (steps : List ORSStep) (whs : List WaffleHouse),
      (reconstructRoute steps whs).length = (steps.filter fun st => st.job.isSome).length ∧
      (∀ w : WaffleHouse, some w ∈ reconstructRoute steps whs → w ∈ whs) ∧
      (∀ (start : ℝ × ℝ) (d : Except Unit (List (List ℝ)))
          (entry : ORSRouteEntry) (resp : ORSOptimizationResponse),
        whs.length ≠ 0 → resp.routes.get? 0 = some entry → entry.steps = steps →
        entry.steps.length ≠ 0 → entry.geometry = none →
        none ∈ reconstructRoute steps whs →
        getOptimizedWaffleRoute start whs (.ok resp) d = .error ()) := by
  intro steps whs
  refine ⟨?_, ?_, ?_⟩
  · unfold reconstructRoute
    rw [List.length_map]
  · intro w hw
    unfold reconstructRoute at hw
    rw [List.mem_map] at hw
    obtain ⟨st, hst, heq⟩ := hw
    match hj : st.job with
    | none =>
      rw [hj] at heq
      simp at heq
    | some j =>
      rw [hj] at heq
      simp only [] at heq
      unfold idxLookup at heq
      by_cases h0 : (0:ℤ) ≤ j - 1
      · rw [if_pos h0] at heq
        exact List.get?_mem heq
      · rw [if_neg h0] at heq
        simp at heq
  · intro start d entry resp h0 hroutes hst hsteps hgeom hnone
    have hroutes2 : resp.routes[0]? = some entry := by
      rw [← List.get?_eq_getElem?]
      exact hroutes
    have herr : mapDeref derefLatLng (reconstructRoute entry.steps whs) = .error () := by
      rw [hst]
      exact mapDeref_derefLatLng_none hnone
    simp [getOptimizedWaffleRoute, h0, hroutes2, hsteps, hgeom, herr, Except.map]

/-- C2 counterexample: for start `(30, -88)` and the non-empty candidate
set `[whA]`, a failing optimizer call makes the whole request fail — the
error is recorded and the candidate list cleared, and the route state is
left untouched (here its initial `[]`) — whereas the greedy Local
Heuristic Solver on the same inputs returns the route `[whA]`.  The
produced route therefore does not equal the solver's route. -/
theorem opt_failure_route_cex :
    (fetchWaffleHouses initialUIState 30 (-88) (.ok (true, [whA])) (.error ())
        (.error ()) (.error ()) (.error ())).route = [] ∧
    (fetchWaffleHouses initialUIState 30 (-88) (.ok (true, [whA])) (.error ())
        (.error ()) (.error ()) (.error ())).waffleHouseError = some () ∧
    (solveHungryForWaffles 30 (-88) [whA]).1 = [whA] := by
  refine ⟨?_, ?_, ?_⟩
  · simp [fetchWaffleHouses, getOptimizedWaffleRoute, initialUIState]
  · simp [fetchWaffleHouses, getOptimizedWaffleRoute, initialUIState]
  · unfold solveHungryForWaffles
    rw [if_neg (by simp)]
    rw [solveLoop.eq_def]
    simp only [selectNearest, List.enumFrom, List.foldl_nil,
      List.getD_cons_zero, List.eraseIdx_cons_zero]
    rw [solveLoop.eq_def]

/-- C2 (amended): if the Remote Optimization Adapter fails, the planning
flow does not fall back to the Local Heuristic Solver; the request fails
as a whole: the candidate-fetch error is recorded, the candidate list is
cleared, and every other piece of state — the route included — keeps its
previous value. -/
theorem opt_failure_no_local_fallback (s0 : UIState) (lat lng : ℝ)
    (data : List WaffleHouse) (d1 d2 : Except Unit (List (List ℝ)))
    (st : Except Unit (ℝ × ℝ)) (h : data.length ≠ 0) :
    fetchWaffleHouses s0 lat lng (.ok (true, data)) (.error ()) d1 d2 st
      = { s0 with waffleHouseError := some (), waffleHouses := [] } := by
  obtain ⟨f1, f2, f3, f4, f5, f6, f7, f8⟩ := s0
  simp [fetchWaffleHouses, getOptimizedWaffleRoute, h, Nat.pos_of_ne_zero h]

/-- Witness for the amended C2 at a concrete input. -/
theorem opt_failure_no_local_fallback_witness :
    ([whA].length ≠ 0) ∧
    (fetchWaffleHouses initialUIState 0 0 (.ok (true, [whA])) (.error ())
        (.error ()) (.error ()) (.error ())
      = { initialUIState with waffleHouseError := some (), waffleHouses := [] }) := by
  have h : [whA].length ≠ 0 := by decide
  exact ⟨h, opt_failure_no_local_fallback initialUIState 0 0 [whA]
    (.error ()) (.error ()) (.error ()) h⟩

/-- A job step carrying identifier 1. -/
def stepJob1 : ORSStep := { job := some 1, arrival := 0, duration := 0, distance := 0 }

/-- A successful optimization route with one step and no geometry. -/
def entryNoGeom : ORSRouteEntry :=
  { vehicle := 1, steps := [stepJob1], distance := 1609.34, duration := 60, geometry := none }

/-- A successful optimization response whose only route has no geometry. -/
def respNoGeom : ORSOptimizationResponse := { unassigned := [], routes := [entryNoGeom] }

/-- C6 counterexample: the optimizer succeeds for start `(30, -88)` and
candidate `[whA]` but returns no geometry.  The planning flow then makes
no directions-service call at all (the claim requires exactly one): the
straight-line point list `[start, whA]` is used directly as the route
geometry. -/
theorem opt_no_geometry_cex :
    (fetchWaffleHouses initialUIState 30 (-88) (.ok (true, [whA])) (.ok respNoGeom)
        (.error ()) (.error ()) (.error ())).pathCalls = [] ∧
    (fetchWaffleHouses initialUIState 30 (-88) (.ok (true, [whA])) (.ok respNoGeom)
        (.error ()) (.error ()) (.error ())).realRouteCoordinates
      = [(30, -88), (30.1, -88)] := by
  have hne : ¬ ((30:ℝ) < 1) := by norm_num
  constructor <;>
    simp [fetchWaffleHouses, getOptimizedWaffleRoute, respNoGeom, entryNoGeom, stepJob1,
      reconstructRoute, idxLookup, mapDeref, derefLatLng, initialUIState, whA, hne,
      Except.map]

/-- C6 (amended): when the optimizer succeeds but returns no geometry (and
the start latitude is at least 1 and every job step resolves), the
directions service is not invoked at all; the geometry used is the
straight line through `[start]` followed by the `OrderedRoute` members in
visiting order.  (Only a decoded geometry whose first produced coordinate
is below 1 triggers a directions call.) -/
theorem opt_no_geometry_no_path_call (s0 : UIState) (lat lng : ℝ)
    (data : List WaffleHouse) (entry : ORSRouteEntry)
    (resp : ORSOptimizationResponse) (d1 d2 : Except Unit (List (List ℝ)))
    (st : Except Unit (ℝ × ℝ)) (ll : List (ℝ × ℝ))
    (hdata : data.length ≠ 0)
    (hroutes : resp.routes.get? 0 = some entry)
    (hsteps : entry.steps.length ≠ 0)
    (hgeom : entry.geometry = none)
    (hlat : 1 ≤ lat)
    (hres : mapDeref derefLatLng (reconstructRoute entry.steps data) = .ok ll) :
    (fetchWaffleHouses s0 lat lng (.ok (true, data)) (.ok resp) d1 d2 st).pathCalls
        = s0.pathCalls ∧
    (fetchWaffleHouses s0 lat lng (.ok (true, data)) (.ok resp) d1 d2 st).realRouteCoordinates
        = (lat, lng) :: ll := by
  have hne : ¬ (lat < 1) := not_lt.mpr hlat
  have hroutes2 : resp.routes[0]? = some entry := by
    rw [← List.get?_eq_getElem?]
    exact hroutes
  constructor <;>
    simp [fetchWaffleHouses, getOptimizedWaffleRoute, hroutes2, hgeom, hres, hdata,
      Nat.pos_of_ne_zero hdata, hsteps, hne, Except.map]

/-- Witness for the amended C6 at a concrete input. -/
theorem opt_no_geometry_no_path_call_witness :
    ([whA].length ≠ 0) ∧ (respNoGeom.routes.get? 0 = some entryNoGeom) ∧
    (entryNoGeom.steps.length ≠ 0) ∧ (entryNoGeom.geometry = none) ∧
    ((1:ℝ) ≤ 30) ∧
    (mapDeref derefLatLng (reconstructRoute entryNoGeom.steps [whA])
      = .ok [(30.1, -88)]) ∧
    ((fetchWaffleHouses initialUIState 30 (-88) (.ok (true, [whA])) (.ok respNoGeom)
        (.error ()) (.error ()) (.error ())).pathCalls = initialUIState.pathCalls) := by
  refine ⟨by decide, rfl, by decide, rfl, by norm_num, rfl, ?_⟩
  exact (opt_no_geometry_no_path_call initialUIState 30 (-88) [whA] entryNoGeom respNoGeom
    (.error ()) (.error ()) (.error ()) [(30.1, -88)] (by decide) rfl (by decide) rfl
    (by norm_num) rfl).1

/-- A job step carrying the out-of-range identifier 5. -/
def stepJob5 : ORSStep := { job := some 5, arrival := 0, duration := 0, distance := 0 }

/-- A successful optimization route whose only step is unresolvable against
a singleton candidate set, with no geometry. -/
def entryBadStep : ORSRouteEntry :=
  { vehicle := 1, steps := [stepJob5], distance := 0, duration := 0, geometry := none }

/-- A successful optimization response whose only route is `entryBadStep`. -/
def respBadStep : ORSOptimizationResponse := { unassigned := [], routes := [entryBadStep] }

/-- Witness for the amended C5 at concrete inputs: the resolvable step with
identifier 1 yields `whA`, drawn from the candidate set; the unresolvable
step with identifier 5 together with a geometry-free response makes the
whole optimization call fail. -/
theorem reconstruct_keeps_unresolvable_witness :
    (some whA ∈ reconstructRoute [stepJob1] [whA]) ∧ whA ∈ [whA] ∧
    ([whA].length ≠ 0 ∧ respBadStep.routes.get? 0 = some entryBadStep ∧
      entryBadStep.steps = [stepJob5] ∧ entryBadStep.steps.length ≠ 0 ∧
      entryBadStep.geometry = none ∧ none ∈ reconstructRoute [stepJob5] [whA]) ∧
    getOptimizedWaffleRoute (30, -88) [whA] (.ok respBadStep) (.error ()) = .error () := by
  have hmem : some whA ∈ reconstructRoute [stepJob1] [whA] := by
    have h : reconstructRoute [stepJob1] [whA] = [some whA] := rfl
    rw [h]
    exact List.mem_singleton.mpr rfl
  have hnone : none ∈ reconstructRoute [stepJob5] [whA] := by
    have h : reconstructRoute [stepJob5] [whA] = [none] := rfl
    rw [h]
    exact List.mem_singleton.mpr rfl
  refine ⟨hmem, (reconstruct_keeps_unresolvable [stepJob1] [whA]).2.1 whA hmem,
    ⟨by decide, rfl, rfl, by decide, rfl, hnone⟩, ?_⟩
  exact (reconstruct_keeps_unresolvable [stepJob5] [whA]).2.2 (30, -88) (.error ())
    entryBadStep respBadStep (by decide) rfl rfl (by decide) rfl hnone
